import Mathlib

/-!
Shallow embedding of `src/server/main.py` from vimarsh244/llm-viz-dash:
an inference-serving facade with a model cache (`get_model`), blocking and
streaming generation endpoints (`generate`, `generate_stream` /
`event_stream`), a tokenization view (`tokenize_text`) and a model-config
view (`get_model_config`).

External collaborators (HuggingFace tokenizer/model loading, tokenization,
generation) are modelled as an `Engine` record of oracle functions; model
and tokenizer handles are opaque naturals.  Python floats appear only as
pass-through values compared against zero, so they are embedded as `ℚ`.
The module-level dict `_models` becomes an association list inside an
explicit `ServerState`, with a `loadCount` instrumentation counter that
counts completed loads (the spec's "load-count counter on a test double").
-/

namespace LLMViz

/-- Lookup in a Python-dict-like association list: the entry holding key
`k`, if any.  Insertion conses at the front, so the first match is the most
recently written binding, matching dict overwrite semantics. -/
def lookupEntry {α : Type} : List (String × α) → String → Option α
  | [], _ => none
  | (k2, v) :: rest, k => if k2 = k then some v else lookupEntry rest k

/-- Request body of `/generate`, `/generate/stream` and `/tokenize`
(`GenerateRequest` in `main.py`, with its default field values). -/
structure GenerateRequest where
  model_id : String
  prompt : String
  max_new_tokens : Int := 128
  temperature : ℚ := 7/10
  top_p : ℚ := 95/100
  repetition_penalty : ℚ := 1
deriving DecidableEq

/-- The keyword arguments handed to the engine's `model.generate` call.
`temperature = none` embeds Python's `temperature=None`. -/
structure GenKwargs where
  max_new_tokens : Int
  do_sample : Bool
  temperature : Option ℚ
  top_p : ℚ
  repetition_penalty : ℚ
deriving DecidableEq

/-- The inference-engine collaborator: loading is fallible (`Except` embeds
raised exceptions, the `String` being `str(e)`); tokenizer handles and model
handles are opaque naturals interpreted by the oracle functions.
`decode tok ids skipSpecial` embeds `tok.decode(ids, skip_special_tokens=...)`;
`streamFragments` yields the fragment sequence a `TextIteratorStreamer`
delivers plus an optional mid-stream exception. -/
structure Engine where
  loadTok : String → Except String Nat
  loadModel : String → Except String Nat
  encode : Nat → String → List Int
  decode : Nat → List Int → Bool → String
  generateOut : Nat → List Int → GenKwargs → List Int
  streamFragments : Nat → List Int → GenKwargs → List String × Option String

/-- The server's mutable module-level state: the `_models` cache mapping a
model id to its `(tok, model)` handle pair, plus the load counter. -/
structure ServerState where
  models : List (String × (Nat × Nat))
  loadCount : Nat
deriving DecidableEq

/-- `get_model` (main.py lines 34-51), sequential semantics: return the
cached handle on a hit; otherwise load tokenizer then model, insert the
pair under `model_id` and return it; a load failure re-raises and leaves
the cache untouched. -/
def get_model (eng : Engine) (model_id : String) (st : ServerState) :
    Except String (Nat × Nat) × ServerState :=
  match lookupEntry st.models model_id with
  | some h => (Except.ok h, st)
  | none =>
    match eng.loadTok model_id with
    | Except.error e => (Except.error e, st)
    | Except.ok tok =>
      match eng.loadModel model_id with
      | Except.error e => (Except.error e, st)
      | Except.ok model =>
        (Except.ok (tok, model),
         { models := (model_id, (tok, model)) :: st.models,
           loadCount := st.loadCount + 1 })

/-- Endpoint result: a 200 body or a `JSONResponse(status_code, {'error': msg})`. -/
inductive Response (α : Type) where
  | ok : α → Response α
  | jsonError : Nat → String → Response α
deriving DecidableEq

/-- The generation kwargs built inline in `generate` (main.py lines 58-65):
sampling iff `temperature > 0`, `temperature=None` otherwise. -/
def generateGenKwargs (req : GenerateRequest) : GenKwargs :=
  { max_new_tokens := req.max_new_tokens
    do_sample := decide (0 < req.temperature)
    temperature := if 0 < req.temperature then some req.temperature else none
    top_p := req.top_p
    repetition_penalty := req.repetition_penalty }

/-- The generation kwargs built inline in `generate_stream` (main.py lines
79-87); the same expressions, duplicated in the source. -/
def streamGenKwargs (req : GenerateRequest) : GenKwargs :=
  { max_new_tokens := req.max_new_tokens
    do_sample := decide (0 < req.temperature)
    temperature := if 0 < req.temperature then some req.temperature else none
    top_p := req.top_p
    repetition_penalty := req.repetition_penalty }

/-- `POST /generate` (main.py lines 53-70): resolve the handle, tokenize the
prompt, run the engine, decode with `skip_special_tokens=True`; any raised
exception becomes a status-500 JSON error carrying `str(e)`. -/
def generate (eng : Engine) (req : GenerateRequest) (st : ServerState) :
    Response String × ServerState :=
  match get_model eng req.model_id st with
  | (Except.error e, st2) => (Response.jsonError 500 e, st2)
  | (Except.ok (tok, model), st2) =>
    let inputs := eng.encode tok req.prompt
    let out := eng.generateOut model inputs (generateGenKwargs req)
    let text := eng.decode tok out true
    (Response.ok text, st2)

/-- `/tokenize` response body. -/
structure TokenizeResponse where
  token_ids : List Int
  tokens : List String
  count : Nat
deriving DecidableEq

/-- `POST /tokenize` (main.py lines 103-118): ids from the tokenizer, each
token string decoded from its single id in isolation
(`tok.decode([tid])`, hence `skip_special_tokens` at its default `False`),
and `count = len(token_ids)`. -/
def tokenize_text (eng : Engine) (req : GenerateRequest) (st : ServerState) :
    Response TokenizeResponse × ServerState :=
  match get_model eng req.model_id st with
  | (Except.error e, st2) => (Response.jsonError 500 e, st2)
  | (Except.ok (tok, _), st2) =>
    let token_ids := eng.encode tok req.prompt
    let tokens := token_ids.map (fun tid => eng.decode tok [tid] false)
    (Response.ok
      { token_ids := token_ids, tokens := tokens, count := token_ids.length },
     st2)

/-- What the streaming generator produces: the framed events it yielded, the
exception it let propagate to the transport (always none: the `except`
clause swallows everything), the log lines it printed, and whether it
joined the background thread. -/
structure StreamResult where
  frames : List String
  raised : Option String
  logged : List String
  joined : Bool
deriving DecidableEq

/-- The `event_stream` generator inside `generate_stream` (main.py lines
89-99): start the background generation thread, yield one
`"data: <piece>\n\n"` frame per fragment read from the streamer, catch and
log any exception raised during the iteration, and join the thread in the
`finally` block.  `failure = some e` embeds a mid-stream exception raised
after the listed fragments were delivered. -/
def event_stream (fragments : List String) (failure : Option String) :
    StreamResult :=
  let frames := fragments.map (fun piece => "data: " ++ piece ++ "\n\n")
  match failure with
  | none => { frames := frames, raised := none, logged := [], joined := true }
  | some e =>
    { frames := frames, raised := none,
      logged := ["Streaming error: " ++ e], joined := true }

/-- A `StreamingResponse(event_stream(), media_type='text/event-stream')`. -/
structure StreamingResponse where
  media_type : String
  body : StreamResult
deriving DecidableEq

/-- Result of the `/generate/stream` endpoint: a streaming response, or the
status-500 JSON error from the outer `except`. -/
inductive StreamEndpointResult where
  | streaming : StreamingResponse → StreamEndpointResult
  | jsonError : Nat → String → StreamEndpointResult
deriving DecidableEq

/-- `POST /generate/stream` (main.py lines 72-101): resolve the handle,
tokenize, build the kwargs, run the engine on a background thread feeding a
streamer, and wrap `event_stream` in a `text/event-stream` response. -/
def generate_stream (eng : Engine) (req : GenerateRequest) (st : ServerState) :
    StreamEndpointResult × ServerState :=
  match get_model eng req.model_id st with
  | (Except.error e, st2) => (StreamEndpointResult.jsonError 500 e, st2)
  | (Except.ok (tok, model), st2) =>
    let inputs := eng.encode tok req.prompt
    let produced := eng.streamFragments model inputs (streamGenKwargs req)
    (StreamEndpointResult.streaming
      { media_type := "text/event-stream",
        body := event_stream produced.1 produced.2 },
     st2)

/-- A `model.config` object: its attributes as an association list (a key
present with value `none` embeds an attribute set to Python `None`;
`hasattr` is key membership), and the optional `to_dict()` dump. -/
structure HFConfig where
  attrs : List (String × Option Int)
  rawDict : Option (List (String × Option Int))
deriving DecidableEq

/-- The `attrs` probe list of `get_model_config` (main.py lines 141-145). -/
def configAttrs : List String :=
  ["n_embd", "hidden_size", "n_head", "num_attention_heads",
   "n_layer", "num_hidden_layers", "vocab_size",
   "block_size", "max_position_embeddings"]

/-- Body of the first `get_model_config` loop (main.py lines 147-151): keep
`attr` when it exists on the config object (`hasattr`) with a non-`None`
value. -/
def probeStep (cattrs : List (String × Option Int))
    (d : List (String × Option Int)) (attr : String) :
    List (String × Option Int) :=
  match lookupEntry cattrs attr with
  | some value =>
    match value with
    | some v => d ++ [(attr, some v)]
    | none => d
  | none => d

/-- Body of the second `get_model_config` loop (main.py lines 153-157):
fill a still-missing probed key from the `to_dict()` dump — note there is
no `None` filter on the dump's value. -/
def mergeStep (raw_config : List (String × Option Int))
    (d : List (String × Option Int)) (key : String) :
    List (String × Option Int) :=
  if (lookupEntry d key).isSome then d
  else
    match lookupEntry raw_config key with
    | some v => d ++ [(key, v)]
    | none => d

/-- The `config_dict` extraction of `get_model_config` (main.py lines
138-157): first loop keeps each probed attribute that exists and is not
`None`; the second loop fills any still-missing probed key from the
`to_dict()` dump when available.  The result is the response mapping in
insertion order; a value `none` is JSON null. -/
def extractConfigDict (config : HFConfig) : List (String × Option Int) :=
  let config_dict := configAttrs.foldl (probeStep config.attrs) []
  match config.rawDict with
  | some raw_config => configAttrs.foldl (mergeStep raw_config) config_dict
  | none => config_dict

/-- `POST /config` (main.py lines 120-157): resolve the handle and extract
the model's config mapping.  `configOf` maps a model handle to its config
object. -/
def get_model_config (eng : Engine) (configOf : Nat → HFConfig)
    (model_id : String) (st : ServerState) :
    Response (List (String × Option Int)) × ServerState :=
  match get_model eng model_id st with
  | (Except.error e, st2) => (Response.jsonError 500 e, st2)
  | (Except.ok (_, model), st2) =>
    (Response.ok (extractConfigDict (configOf model)), st2)

/-!
Interleaving model of concurrent `get_model` calls for the cache-race
claims.  FastAPI runs the `def` endpoints on a thread pool, and
`from_pretrained` is blocking I/O that releases the interpreter lock, so
distinct callers interleave between the cache-membership check and the
insertion.  A thread resolving `model_id` moves through three program
points of `get_model`: the `if model_id in _models` check, the
tokenizer+model load (each completed load yields a fresh handle, numbered
by the global load counter), and the dict insertion plus
`return _models[model_id]`.  Each point executes atomically; a schedule is
the list of thread indices in execution order.
-/

/-- Program counter of one thread inside `get_model`. -/
inductive TPC where
  | ready
  | missed
  | loaded : Nat → TPC
  | done : Nat → TPC
deriving DecidableEq

/-- Shared state plus per-thread state: the `_models` cache (handles are
load numbers), the count of completed loads, and each thread's
`(model_id, pc)`. -/
structure CSys where
  cache : List (String × Nat)
  loadCount : Nat
  threads : List (String × TPC)
deriving DecidableEq

/-- One atomic step of a thread at program counter `pc` resolving `mid`:
the cache check, the load (allocating fresh handle `loadCount`), or the
insertion and re-read returning the just-inserted handle. -/
def threadStep (sys : CSys) (mid : String) (pc : TPC) : CSys × TPC :=
  match pc with
  | TPC.ready =>
    match lookupEntry sys.cache mid with
    | some h => (sys, TPC.done h)
    | none => (sys, TPC.missed)
  | TPC.missed =>
    ({ sys with loadCount := sys.loadCount + 1 }, TPC.loaded sys.loadCount)
  | TPC.loaded h => ({ sys with cache := (mid, h) :: sys.cache }, TPC.done h)
  | TPC.done h => (sys, TPC.done h)

/-- Run one step of thread `i` (no-op on an out-of-range index). -/
def sysStep (sys : CSys) (i : Nat) : CSys :=
  match sys.threads.get? i with
  | none => sys
  | some (mid, pc) =>
    let next := threadStep sys mid pc
    { next.1 with threads := next.1.threads.set i (mid, next.2) }

/-- Run a schedule: thread indices in execution order. -/
def runSched (sys : CSys) (sched : List Nat) : CSys :=
  sched.foldl sysStep sys

/-- `n` callers concurrently resolving the same unseen `mid` against an
empty cache. -/
def initSys (mid : String) (n : Nat) : CSys :=
  { cache := [], loadCount := 0, threads := List.replicate n (mid, TPC.ready) }

/-- The handle a finished thread returned, if it has finished. -/
def threadResult (sys : CSys) (i : Nat) : Option Nat :=
  match sys.threads.get? i with
  | some (_, TPC.done h) => some h
  | _ => none

/-! Concrete engines and states used to instantiate the theorems below on
executable inputs. -/

/-- A deterministic test double of the inference engine whose loads always
succeed. -/
def engW : Engine :=
  { loadTok := fun _ => Except.ok 10
    loadModel := fun _ => Except.ok 20
    encode := fun _ s => [Int.ofNat s.length, 7]
    decode := fun _ ids skip => toString ids ++ toString skip
    generateOut := fun _ inputs _ => inputs ++ [42]
    streamFragments := fun _ _ _ => (["Hel", "lo"], none) }

/-- A test double whose tokenizer load always raises. -/
def engFail : Engine :=
  { engW with loadTok := fun mid => Except.error ("no such model: " ++ mid) }

/-- A server state with one cached handle. -/
def stCached : ServerState :=
  { models := [("gpt2", (7, 8))], loadCount := 5 }

/-- The empty initial server state. -/
def stEmpty : ServerState := { models := [], loadCount := 0 }

/-- The `/tokenize` response `engW` produces for prompt "Hi". -/
def tokR : TokenizeResponse :=
  { token_ids := [2, 7], tokens := ["[2]false", "[7]false"], count := 2 }

/-! Association-list lemmas shared by the theorems below. -/

theorem lookupEntry_append_of_some {α : Type} {l1 : List (String × α)}
    (l2 : List (String × α)) {k : String} {v : α}
    (h : lookupEntry l1 k = some v) : lookupEntry (l1 ++ l2) k = some v := by
  induction l1 with
  | nil => simp [lookupEntry] at h
  | cons p rest ih =>
    rw [List.cons_append]
    rw [lookupEntry] at h ⊢
    by_cases hp : p.1 = k
    · simpa [hp] using h
    · rw [if_neg hp] at h ⊢
      exact ih h

theorem lookupEntry_append_of_none {α : Type} {l1 : List (String × α)}
    (l2 : List (String × α)) {k : String}
    (h : lookupEntry l1 k = none) :
    lookupEntry (l1 ++ l2) k = lookupEntry l2 k := by
  induction l1 with
  | nil => simp [lookupEntry]
  | cons p rest ih =>
    rw [List.cons_append]
    rw [lookupEntry] at h ⊢
    by_cases hp : p.1 = k
    · simp [hp] at h
    · rw [if_neg hp] at h ⊢
      exact ih h

theorem lookupEntry_append_single_ne {α : Type} (d : List (String × α))
    {a k : String} (w : α) (hak : a ≠ k) :
    lookupEntry (d ++ [(a, w)]) k = lookupEntry d k := by
  cases hd : lookupEntry d k with
  | some v => exact lookupEntry_append_of_some _ hd
  | none =>
    rw [lookupEntry_append_of_none _ hd]
    simp [lookupEntry, hak]

/-! Characterizations of the two `get_model_config` loops. -/

/-- The probe loop never creates an entry for an attribute that is absent
from the config object or set to `None` on it. -/
theorem probe_foldl_lookup (cattrs : List (String × Option Int))
    (l : List String) (d : List (String × Option Int)) (k : String)
    (hk : lookupEntry cattrs k = none ∨ lookupEntry cattrs k = some none) :
    lookupEntry (l.foldl (probeStep cattrs) d) k = lookupEntry d k := by
  induction l generalizing d with
  | nil => rfl
  | cons a rest ih =>
    rw [List.foldl_cons, ih]
    unfold probeStep
    cases hl : lookupEntry cattrs a with
    | none => rfl
    | some value =>
      cases value with
      | none => rfl
      | some v =>
        have hak : a ≠ k := by
          intro h
          subst h
          rcases hk with hk | hk <;> rw [hl] at hk <;> simp at hk
        exact lookupEntry_append_single_ne d _ hak

/-- The merge loop never overwrites an entry already present. -/
theorem merge_foldl_preserves_some (raw : List (String × Option Int))
    (l : List String) (d : List (String × Option Int)) (k : String)
    (v : Option Int) (hd : lookupEntry d k = some v) :
    lookupEntry (l.foldl (mergeStep raw) d) k = some v := by
  induction l generalizing d with
  | nil => exact hd
  | cons a rest ih =>
    rw [List.foldl_cons]
    apply ih
    unfold mergeStep
    by_cases hak : a = k
    · subst hak
      rw [hd]
      simp [hd]
    · split
      · exact hd
      · cases lookupEntry raw a with
        | some w => exact (lookupEntry_append_single_ne d _ hak).trans hd
        | none => exact hd

/-- The merge loop leaves a key untouched when the raw dump lacks it. -/
theorem merge_foldl_raw_none (raw : List (String × Option Int))
    (l : List String) (d : List (String × Option Int)) (k : String)
    (hraw : lookupEntry raw k = none) :
    lookupEntry (l.foldl (mergeStep raw) d) k = lookupEntry d k := by
  induction l generalizing d with
  | nil => rfl
  | cons a rest ih =>
    rw [List.foldl_cons, ih]
    unfold mergeStep
    by_cases hak : a = k
    · subst hak
      split
      · rfl
      · rw [hraw]
    · split
      · rfl
      · cases lookupEntry raw a with
        | some w => exact lookupEntry_append_single_ne d _ hak
        | none => rfl

/-- The merge loop fills a probed key that is still missing with the raw
dump's value for it, whatever that value is. -/
theorem merge_foldl_fills (raw : List (String × Option Int))
    (l : List String) (d : List (String × Option Int)) (k : String)
    (v : Option Int) (hmem : k ∈ l) (hd : lookupEntry d k = none)
    (hraw : lookupEntry raw k = some v) :
    lookupEntry (l.foldl (mergeStep raw) d) k = some v := by
  induction l generalizing d with
  | nil => cases hmem
  | cons a rest ih =>
    rw [List.foldl_cons]
    by_cases hak : a = k
    · subst hak
      have hstep : mergeStep raw d a = d ++ [(a, v)] := by
        unfold mergeStep
        rw [hd, hraw]
        rfl
      rw [hstep]
      apply merge_foldl_preserves_some
      rw [lookupEntry_append_of_none _ hd]
      simp [lookupEntry]
    · have hmem2 : k ∈ rest := by
        rcases List.mem_cons.mp hmem with h | h
        · exact absurd h.symm hak
        · exact h
      apply ih _ hmem2
      unfold mergeStep
      split
      · exact hd
      · cases lookupEntry raw a with
        | some w => exact (lookupEntry_append_single_ne d _ hak).trans hd
        | none => exact hd

/-- C1 counterexample: two callers concurrently resolving the unseen id
"gpt2" under the interleaving check/check/load/load/insert/insert perform
TWO loads and observe DISTINCT handles (thread 0 gets handle 0, thread 1
gets handle 1), refuting "exactly one load is performed and all N callers
observe the same handle": `get_model` takes no lock, so cache insertion is
not mutually exclusive per identifier. -/
theorem c1_counterexample :
    (runSched (initSys "gpt2" 2) [0, 1, 0, 1, 0, 1]).loadCount = 2 ∧
    threadResult (runSched (initSys "gpt2" 2) [0, 1, 0, 1, 0, 1]) 0 = some 0 ∧
    threadResult (runSched (initSys "gpt2" 2) [0, 1, 0, 1, 0, 1]) 1 = some 1 ∧
    threadResult (runSched (initSys "gpt2" 2) [0, 1, 0, 1, 0, 1]) 0 ≠
      threadResult (runSched (initSys "gpt2" 2) [0, 1, 0, 1, 0, 1]) 1 := by
  decide

/-- C1 (amended): concurrent first-time resolution of the same unseen
identifier is NOT serialized — under the racing interleaving two callers
perform two loads and observe distinct handles, and the cache retains the
last-written handle (last write wins); when the two resolutions do not
overlap (the first runs to completion before the second starts), exactly
one load occurs and both callers observe the same handle. -/
theorem c1_amended_no_per_key_lock :
    ((runSched (initSys "gpt2" 2) [0, 1, 0, 1, 0, 1]).loadCount = 2 ∧
     threadResult (runSched (initSys "gpt2" 2) [0, 1, 0, 1, 0, 1]) 0 = some 0 ∧
     threadResult (runSched (initSys "gpt2" 2) [0, 1, 0, 1, 0, 1]) 1 = some 1 ∧
     lookupEntry (runSched (initSys "gpt2" 2) [0, 1, 0, 1, 0, 1]).cache "gpt2" =
       some 1) ∧
    ((runSched (initSys "gpt2" 2) [0, 0, 0, 1]).loadCount = 1 ∧
     threadResult (runSched (initSys "gpt2" 2) [0, 0, 0, 1]) 0 = some 0 ∧
     threadResult (runSched (initSys "gpt2" 2) [0, 0, 0, 1]) 1 = some 0 ∧
     lookupEntry (runSched (initSys "gpt2" 2) [0, 0, 0, 1]).cache "gpt2" =
       some 0) := by
  decide

/-- C2: for every request, when `temperature = 0` both endpoints call the
engine with `do_sample = false` (non-sampling, greedy decoding) and pass no
temperature value (`None`); when `temperature > 0`, sampling is enabled and
the request's temperature is passed. -/
theorem c2_temperature_gating (req : GenerateRequest) :
    (req.temperature = 0 →
      (generateGenKwargs req).do_sample = false ∧
      (generateGenKwargs req).temperature = none ∧
      (streamGenKwargs req).do_sample = false ∧
      (streamGenKwargs req).temperature = none) ∧
    (0 < req.temperature →
      (generateGenKwargs req).do_sample = true ∧
      (generateGenKwargs req).temperature = some req.temperature ∧
      (streamGenKwargs req).do_sample = true ∧
      (streamGenKwargs req).temperature = some req.temperature) := by
  constructor
  · intro h0
    simp [generateGenKwargs, streamGenKwargs, h0]
  · intro hpos
    simp [generateGenKwargs, streamGenKwargs, hpos]

/-- Witness for C2 at temperature 0 and at the default temperature 7/10. -/
theorem c2_temperature_gating_witness :
    ((generateGenKwargs
        { model_id := "gpt2", prompt := "Hi", temperature := 0 }).do_sample
        = false ∧
     (generateGenKwargs
        { model_id := "gpt2", prompt := "Hi", temperature := 0 }).temperature
        = none ∧
     (streamGenKwargs
        { model_id := "gpt2", prompt := "Hi", temperature := 0 }).do_sample
        = false ∧
     (streamGenKwargs
        { model_id := "gpt2", prompt := "Hi", temperature := 0 }).temperature
        = none) ∧
    ((generateGenKwargs { model_id := "gpt2", prompt := "Hi" }).do_sample
        = true ∧
     (generateGenKwargs { model_id := "gpt2", prompt := "Hi" }).temperature
        = some (7/10) ∧
     (streamGenKwargs { model_id := "gpt2", prompt := "Hi" }).do_sample
        = true ∧
     (streamGenKwargs { model_id := "gpt2", prompt := "Hi" }).temperature
        = some (7/10)) :=
  ⟨(c2_temperature_gating
      { model_id := "gpt2", prompt := "Hi", temperature := 0 }).1 rfl,
   (c2_temperature_gating { model_id := "gpt2", prompt := "Hi" }).2
      (by norm_num)⟩

/-- C9: when the background generation raises after the listed fragments
were delivered, `event_stream` lets no exception reach the transport, logs
the failure, joins the thread, and its frames are exactly the frames of the
already-yielded fragments — nothing is retracted and no error frame is
appended, so the client sees a truncated but well-formed stream. -/
theorem c9_midstream_failure_swallowed (fragments : List String) (e : String) :
    (event_stream fragments (some e)).raised = none ∧
    (event_stream fragments (some e)).logged = ["Streaming error: " ++ e] ∧
    (event_stream fragments (some e)).joined = true ∧
    (event_stream fragments (some e)).frames =
      fragments.map (fun piece => "data: " ++ piece ++ "\n\n") ∧
    (event_stream fragments (some e)).frames.length = fragments.length := by
  refine ⟨rfl, rfl, rfl, rfl, ?_⟩
  simp [event_stream]

/-- C10: the `/tokenize` response is a function of `model_id` and `prompt`
only — two requests agreeing on those fields produce identical responses
and identical resulting server states, whatever their `max_new_tokens`,
`temperature`, `top_p` and `repetition_penalty`. -/
theorem c10_tokenize_noninterference (eng : Engine) (st : ServerState)
    (r1 r2 : GenerateRequest) (hid : r1.model_id = r2.model_id)
    (hp : r1.prompt = r2.prompt) :
    tokenize_text eng r1 st = tokenize_text eng r2 st := by
  unfold tokenize_text
  rw [hid, hp]

/-- Witness for C10: two requests differing in every sampling field get the
same `/tokenize` response. -/
theorem c10_tokenize_noninterference_witness :
    tokenize_text engW
      { model_id := "gpt2", prompt := "Hi", max_new_tokens := 1,
        temperature := 0, top_p := 1/2, repetition_penalty := 2 } stEmpty =
    tokenize_text engW
      { model_id := "gpt2", prompt := "Hi", max_new_tokens := 99,
        temperature := 3, top_p := 1/4, repetition_penalty := 5 } stEmpty :=
  c10_tokenize_noninterference engW stEmpty _ _ rfl rfl

/-- C3: a cached identifier resolves to its cached handle with the state
(cache and load counter) unchanged — no load is performed; consequently,
after any successful resolution, resolving the same identifier again
returns the same handle and again leaves the state unchanged, so no second
load occurs. -/
theorem c3_cached_handle_reuse :
    (∀ (eng : Engine) (model_id : String) (st : ServerState) (h : Nat × Nat),
      lookupEntry st.models model_id = some h →
      get_model eng model_id st = (Except.ok h, st)) ∧
    (∀ (eng : Engine) (model_id : String) (st st2 : ServerState)
       (h : Nat × Nat),
      get_model eng model_id st = (Except.ok h, st2) →
      get_model eng model_id st2 = (Except.ok h, st2)) := by
  constructor
  · intro eng model_id st h hmem
    unfold get_model
    rw [hmem]
  · intro eng model_id st st2 h hcall
    unfold get_model at hcall ⊢
    cases hlook : lookupEntry st.models model_id with
    | some h0 =>
      rw [hlook] at hcall
      simp only [Prod.mk.injEq, Except.ok.injEq] at hcall
      obtain ⟨rfl, rfl⟩ := hcall
      rw [hlook]
    | none =>
      rw [hlook] at hcall
      cases htok : eng.loadTok model_id with
      | error e =>
        rw [htok] at hcall
        simp at hcall
      | ok tok =>
        rw [htok] at hcall
        cases hmod : eng.loadModel model_id with
        | error e =>
          rw [hmod] at hcall
          simp at hcall
        | ok model =>
          rw [hmod] at hcall
          simp only [Prod.mk.injEq, Except.ok.injEq] at hcall
          obtain ⟨rfl, rfl⟩ := hcall
          simp [lookupEntry]

/-- Witness for C3: a cache hit returns the cached handle unchanged, and a
second resolution after a first load returns the loaded handle with no
second load. -/
theorem c3_cached_handle_reuse_witness :
    get_model engW "gpt2" stCached = (Except.ok (7, 8), stCached) ∧
    get_model engW "m" { models := [("m", (10, 20))], loadCount := 1 } =
      (Except.ok (10, 20), { models := [("m", (10, 20))], loadCount := 1 }) :=
  ⟨c3_cached_handle_reuse.1 engW "gpt2" stCached (7, 8) (by decide),
   c3_cached_handle_reuse.2 engW "m" stEmpty
     { models := [("m", (10, 20))], loadCount := 1 } (10, 20) rfl⟩

/-- C4: when resolving an uncached identifier fails, the cache and load
counter are unchanged, `/generate` surfaces a status-500 error carrying the
underlying cause, and a subsequent resolve of the same identifier against
an engine whose loads succeed performs the load from scratch (inserting the
handle and incrementing the load counter). -/
theorem c4_load_failure (eng : Engine) (req : GenerateRequest)
    (st : ServerState) (e : String)
    (hmiss : lookupEntry st.models req.model_id = none)
    (herr : (get_model eng req.model_id st).1 = Except.error e) :
    (get_model eng req.model_id st).2 = st ∧
    generate eng req st = (Response.jsonError 500 e, st) ∧
    ∀ (eng2 : Engine) (t m : Nat),
      eng2.loadTok req.model_id = Except.ok t →
      eng2.loadModel req.model_id = Except.ok m →
      get_model eng2 req.model_id st =
        (Except.ok (t, m),
         { models := (req.model_id, (t, m)) :: st.models,
           loadCount := st.loadCount + 1 }) := by
  have hgm : get_model eng req.model_id st = (Except.error e, st) := by
    unfold get_model at herr ⊢
    rw [hmiss] at herr ⊢
    cases htok : eng.loadTok req.model_id with
    | error e2 =>
      rw [htok] at herr
      simp at herr
      simp [herr]
    | ok tok =>
      rw [htok] at herr
      cases hmod : eng.loadModel req.model_id with
      | error e2 =>
        rw [hmod] at herr
        simp at herr
        simp [herr]
      | ok model =>
        rw [hmod] at herr
        simp at herr
  refine ⟨by rw [hgm], ?_, ?_⟩
  · unfold generate
    rw [hgm]
  · intro eng2 t m htok hmod
    unfold get_model
    rw [hmiss, htok, hmod]

/-- Witness for C4: a failing tokenizer load leaves the empty state
untouched, `/generate` returns the 500 payload with the cause, and the
retry against a working engine loads and caches the handle. -/
theorem c4_load_failure_witness :
    (get_model engFail "gpt2" stEmpty).2 = stEmpty ∧
    generate engFail { model_id := "gpt2", prompt := "Hi" } stEmpty =
      (Response.jsonError 500 "no such model: gpt2", stEmpty) ∧
    get_model engW "gpt2" stEmpty =
      (Except.ok (10, 20),
       { models := [("gpt2", (10, 20))], loadCount := 1 }) :=
  ⟨(c4_load_failure engFail { model_id := "gpt2", prompt := "Hi" } stEmpty
      "no such model: gpt2" rfl rfl).1,
   (c4_load_failure engFail { model_id := "gpt2", prompt := "Hi" } stEmpty
      "no such model: gpt2" rfl rfl).2.1,
   (c4_load_failure engFail { model_id := "gpt2", prompt := "Hi" } stEmpty
      "no such model: gpt2" rfl rfl).2.2 engW 10 20 rfl rfl⟩

/-- C6: every successful `/tokenize` response satisfies
`count = len(token_ids) = len(tokens)`. -/
theorem c6_tokenize_count_invariant (eng : Engine) (req : GenerateRequest)
    (st st2 : ServerState) (r : TokenizeResponse)
    (hok : tokenize_text eng req st = (Response.ok r, st2)) :
    r.count = r.token_ids.length ∧ r.count = r.tokens.length := by
  unfold tokenize_text at hok
  cases hgm : get_model eng req.model_id st with
  | mk res st3 =>
    rw [hgm] at hok
    cases res with
    | error e => simp at hok
    | ok h =>
      obtain ⟨tok, model⟩ := h
      simp at hok
      obtain ⟨hr, hst⟩ := hok
      subst hr
      exact ⟨rfl, by simp⟩

/-- Witness for C6 on the deterministic engine. -/
theorem c6_tokenize_count_invariant_witness :
    tokR.count = tokR.token_ids.length ∧ tokR.count = tokR.tokens.length :=
  c6_tokenize_count_invariant engW { model_id := "gpt2", prompt := "Hi" }
    stEmpty { models := [("gpt2", (10, 20))], loadCount := 1 } tokR rfl

/-- C7: in every successful `/tokenize` response, the token string at each
position is the decoding of the single corresponding id in isolation
(`tok.decode([tid])`), not a substring of the joint decoding. -/
theorem c7_tokens_isolated_decode (eng : Engine) (req : GenerateRequest)
    (st st2 : ServerState) (r : TokenizeResponse) (tok model : Nat)
    (hok : tokenize_text eng req st = (Response.ok r, st2))
    (hgm : (get_model eng req.model_id st).1 = Except.ok (tok, model)) :
    r.tokens = r.token_ids.map (fun tid => eng.decode tok [tid] false) ∧
    ∀ (i : Nat) (h1 : i < r.tokens.length) (h2 : i < r.token_ids.length),
      r.tokens.get ⟨i, h1⟩ = eng.decode tok [r.token_ids.get ⟨i, h2⟩] false := by
  unfold tokenize_text at hok
  cases hfull : get_model eng req.model_id st with
  | mk res st3 =>
    rw [hfull] at hok hgm
    simp at hgm
    subst hgm
    simp at hok
    obtain ⟨hr, hst⟩ := hok
    subst hr
    constructor
    · rfl
    · intro i h1 h2
      simp [List.get_eq_getElem, List.getElem_map]

/-- Witness for C7 on the deterministic engine, checking position 0. -/
theorem c7_tokens_isolated_decode_witness :
    tokR.tokens = tokR.token_ids.map (fun tid => engW.decode 10 [tid] false) ∧
    tokR.tokens.get ⟨0, by decide⟩ =
      engW.decode 10 [tokR.token_ids.get ⟨0, by decide⟩] false :=
  ⟨(c7_tokens_isolated_decode engW { model_id := "gpt2", prompt := "Hi" }
      stEmpty { models := [("gpt2", (10, 20))], loadCount := 1 } tokR 10 20
      rfl rfl).1,
   (c7_tokens_isolated_decode engW { model_id := "gpt2", prompt := "Hi" }
      stEmpty { models := [("gpt2", (10, 20))], loadCount := 1 } tokR 10 20
      rfl rfl).2 0 (by decide) (by decide)⟩

/-- C8: the streaming transport emits exactly one `"data: <fragment>\n\n"`
event per fragment, in exactly the order the engine produced them (the
frame at position `i` wraps the fragment at position `i`), and the response
content type is `text/event-stream`. -/
theorem c8_stream_framing_order (fragments : List String)
    (failure : Option String) :
    (event_stream fragments failure).frames.length = fragments.length ∧
    (∀ (i : Nat) (h1 : i < (event_stream fragments failure).frames.length)
       (h2 : i < fragments.length),
      (event_stream fragments failure).frames.get ⟨i, h1⟩ =
        "data: " ++ fragments.get ⟨i, h2⟩ ++ "\n\n") ∧
    ∀ (eng : Engine) (req : GenerateRequest) (st st2 : ServerState)
      (resp : StreamingResponse),
      generate_stream eng req st = (StreamEndpointResult.streaming resp, st2) →
      resp.media_type = "text/event-stream" := by
  refine ⟨?_, ?_, ?_⟩
  · cases failure <;> simp [event_stream]
  · intro i h1 h2
    cases failure <;>
      simp [event_stream, List.get_eq_getElem, List.getElem_map]
  · intro eng req st st2 resp hcall
    unfold generate_stream at hcall
    cases hgm : get_model eng req.model_id st with
    | mk res st3 =>
      rw [hgm] at hcall
      cases res with
      | error e => simp at hcall
      | ok h =>
        obtain ⟨tok, model⟩ := h
        simp at hcall
        obtain ⟨hresp, hst⟩ := hcall
        subst hresp
        rfl

/-- Witness for C8 on the deterministic engine's fragment stream. -/
theorem c8_stream_framing_order_witness :
    (event_stream ["Hel", "lo"] none).frames.length = 2 ∧
    (event_stream ["Hel", "lo"] none).frames.get ⟨0, by decide⟩ =
      "data: Hel\n\n" ∧
    ({ media_type := "text/event-stream",
       body := event_stream ["Hel", "lo"] none } :
       StreamingResponse).media_type = "text/event-stream" :=
  ⟨(c8_stream_framing_order ["Hel", "lo"] none).1,
   (c8_stream_framing_order ["Hel", "lo"] none).2.1 0 (by decide) (by decide),
   (c8_stream_framing_order ["Hel", "lo"] none).2.2 engW
     { model_id := "gpt2", prompt := "Hi" } stEmpty
     { models := [("gpt2", (10, 20))], loadCount := 1 }
     { media_type := "text/event-stream",
       body := event_stream ["Hel", "lo"] none } rfl⟩

/-- C5 counterexample: for a config whose recognized attribute `n_embd`
exists on the object with value `None` while the `to_dict()` dump also
carries `n_embd` (as `None`), the `/config` mapping contains the key with a
null value — the raw-dump merge loop has no `None` filter — refuting "omits
that key entirely, never contains a null value". -/
theorem c5_counterexample :
    "n_embd" ∈ configAttrs ∧
    lookupEntry
      ({ attrs := [("n_embd", none)],
         rawDict := some [("n_embd", none)] } : HFConfig).attrs "n_embd" =
      some none ∧
    extractConfigDict
      { attrs := [("n_embd", none)], rawDict := some [("n_embd", none)] } =
      [("n_embd", none)] := by
  decide

/-- C5 (amended): a recognized attribute that is absent from the config
object or null on it is omitted from the `/config` mapping whenever the
raw `to_dict()` dump also lacks it — in particular no default is ever
substituted; but when the raw dump does carry the key, the dump's value is
emitted as-is, possibly null. -/
theorem c5_amended_config_omission (config : HFConfig) (attr : String)
    (hobj : lookupEntry config.attrs attr = none ∨
            lookupEntry config.attrs attr = some none) :
    ((config.rawDict = none ∨
      ∃ raw, config.rawDict = some raw ∧ lookupEntry raw attr = none) →
      lookupEntry (extractConfigDict config) attr = none) ∧
    ∀ (raw : List (String × Option Int)) (v : Option Int),
      config.rawDict = some raw → lookupEntry raw attr = some v →
      attr ∈ configAttrs →
      lookupEntry (extractConfigDict config) attr = some v := by
  have hprobe :
      lookupEntry (configAttrs.foldl (probeStep config.attrs) []) attr =
        none :=
    (probe_foldl_lookup config.attrs configAttrs [] attr hobj).trans rfl
  constructor
  · intro hraw
    rcases hraw with hnone | ⟨raw, hsome, hlk⟩
    · simp only [extractConfigDict, hnone]
      exact hprobe
    · simp only [extractConfigDict, hsome]
      rw [merge_foldl_raw_none raw configAttrs _ attr hlk]
      exact hprobe
  · intro raw v hsome hlk hmem
    simp only [extractConfigDict, hsome]
    exact merge_foldl_fills raw configAttrs _ attr v hmem hprobe hlk

/-- Witness for C5 (amended): an attribute absent everywhere is omitted,
and an attribute null on the object but present in the raw dump is filled
from the dump. -/
theorem c5_amended_config_omission_witness :
    lookupEntry (extractConfigDict { attrs := [], rawDict := none })
      "n_embd" = none ∧
    lookupEntry
      (extractConfigDict
        { attrs := [("n_head", some 12), ("vocab_size", none)],
          rawDict := some [("vocab_size", some 50257)] })
      "vocab_size" = some (some 50257) :=
  ⟨(c5_amended_config_omission { attrs := [], rawDict := none } "n_embd"
      (Or.inl rfl)).1 (Or.inl rfl),
   (c5_amended_config_omission
      { attrs := [("n_head", some 12), ("vocab_size", none)],
        rawDict := some [("vocab_size", some 50257)] } "vocab_size"
      (Or.inr (by decide))).2
      [("vocab_size", some 50257)] (some 50257) rfl (by decide) (by decide)⟩

end LLMViz
